import Mathlib

/-!
Shallow embedding of `src/main.go` of the `todo-back` repository: a CRUD
HTTP API over a single `todos` table.  The five gin handlers
(`createTodo`, `listTodos`, `getTodo`, `updateTodo`, `deleteTodo`) are
translated as pure functions from the database state, the raw path
parameter, the decoded JSON body and injected storage-fault flags, to a
`HandlerResult` carrying the HTTP status, the response body, the new
database state, and the trace of SQL statements issued to the driver.
-/

/-- The `Todo` model struct, `src/main.go` lines 16-22: columns of the
`todos` table.  Go `int64` becomes `Int` (all values produced here stay in
range), `string` becomes `String`, `bool` becomes `Bool`. -/
structure Todo where
  id : Int
  title : String
  detail : String
  point : Int
  done : Bool
deriving DecidableEq, Repr

/-- The Go zero value of the `Todo` struct: `var newTodo Todo` starts as
all zero values (0, empty string, false). -/
def zeroTodo : Todo := ⟨0, "", "", 0, false⟩

/-- A value bound to a `?` placeholder of a SQL statement. -/
inductive Param where
  | str (s : String)
  | int (i : Int)
  | bool (b : Bool)
deriving DecidableEq, Repr

/-- One SQL statement as handed to `db.Exec` / `db.Query` / `db.QueryRow`:
the statement text and the list of bound parameters, kept separate exactly
as in the driver interface. -/
structure Stmt where
  text : String
  params : List Param
deriving DecidableEq, Repr

/-- State of the `todos` table (schema in the repository SQL file:
`id INT PRIMARY KEY AUTO_INCREMENT`, remaining columns NOT NULL):
the stored rows in insertion order plus the AUTO_INCREMENT counter that
MySQL uses for the next generated id. -/
structure DB where
  rows : List Todo
  nextId : Int
deriving DecidableEq, Repr

/-- A decoded JSON request body for the `Todo` shape.  Go
`encoding/json` (used by gin `BindJSON`) ignores unknown object fields and
leaves struct fields absent from the JSON untouched; `Option` per field
records which fields the JSON object supplies. -/
structure TodoPatch where
  id : Option Int := none
  title : Option String := none
  detail : Option String := none
  point : Option Int := none
  done : Option Bool := none
deriving DecidableEq, Repr

/-- Go `encoding/json` unmarshalling into an already-populated struct:
every field present in the JSON object overwrites the struct field, every
absent field keeps the prior value. -/
def TodoPatch.applyTo (p : TodoPatch) (t : Todo) : Todo :=
  ⟨p.id.getD t.id, p.title.getD t.title, p.detail.getD t.detail,
   p.point.getD t.point, p.done.getD t.done⟩

/-- Value of a base-10 digit character, `none` if the character is not in
`0`..`9` (Go `strconv` accepts only ASCII digits for base 10). -/
def digitVal (c : Char) : Option Nat :=
  if '0' ≤ c ∧ c ≤ '9' then some (c.toNat - '0'.toNat) else none

/-- Accumulate a base-10 digit string into a natural number; fails on any
non-digit character. -/
def digitsToNat : List Char → Nat → Option Nat
  | [], acc => some acc
  | c :: cs, acc =>
    match digitVal c with
    | none => none
    | some d => digitsToNat cs (10 * acc + d)

/-- Embedding of Go `strconv.ParseInt(s, 10, 64)` as used by the three
id-taking handlers: an optional single leading sign, then a non-empty run
of base-10 digits, and the value must fit a signed 64-bit integer
(`strconv` returns a non-nil error on range overflow, which the handlers
treat the same as a syntax error). -/
def parseInt64 (s : String) : Option Int :=
  let core : List Char → Bool → Option Int := fun ds neg =>
    match ds with
    | [] => none
    | _ =>
      match digitsToNat ds 0 with
      | none => none
      | some n =>
        let v : Int := if neg then -(n : Int) else (n : Int)
        if -(2 ^ 63) ≤ v ∧ v ≤ 2 ^ 63 - 1 then some v else none
  match s.data with
  | [] => none
  | '+' :: rest => core rest false
  | '-' :: rest => core rest true
  | cs => core cs false

/-- Response body written by a handler via `ctx.IndentedJSON`: a single
todo, a list of todos, the `gin.H{"id": id}` object of the delete handler,
or a `gin.H{"message": ...}` error object. -/
inductive RespBody where
  | todo (t : Todo)
  | todos (ts : List Todo)
  | idObj (id : Int)
  | message (s : String)
deriving DecidableEq, Repr

/-- Outcome of one handler invocation: HTTP status, response body, the
database state after the request, and the SQL statements issued to the
driver during the request (in order). -/
structure HandlerResult where
  status : Nat
  body : RespBody
  db : DB
  trace : List Stmt
deriving DecidableEq, Repr

/-- The INSERT statement text, `src/main.go` line 103 (a Go string
literal, hence constant). -/
def insertSQL : String := "INSERT INTO todos(title, detail, point, done) VALUES(?, ?, ?, ?)"

/-- The SELECT-all statement text, `src/main.go` line 123. -/
def selectAllSQL : String := "SELECT * FROM todos"

/-- The SELECT-by-id statement text, `src/main.go` line 162. -/
def selectOneSQL : String := "SELECT * FROM todos WHERE id = ?"

/-- The UPDATE statement text, `src/main.go` line 191. -/
def updateSQL : String := "UPDATE todos SET title = ?, detail = ?, point = ?, done = ? WHERE id = ?"

/-- The DELETE statement text, `src/main.go` line 226. -/
def deleteSQL : String := "DELETE FROM todos WHERE id = ?"

/-- `createTodo`, `src/main.go` lines 94-118.  `body = none` models a
`BindJSON` failure (invalid JSON or wrong field types).  `execFail` models
a storage failure of `db.Exec` (in which case nothing is inserted),
`lastIdFail` a failure of `res.LastInsertId()` (the row is already
inserted).  On success MySQL assigns `db.nextId` as the AUTO_INCREMENT id;
the INSERT lists only the columns `title, detail, point, done`, never
`id`, and the response is `newTodo` with its `Id` field overwritten by
`LastInsertId`. -/
def createTodo (db : DB) (body : Option TodoPatch) (execFail lastIdFail : Bool) :
    HandlerResult :=
  match body with
  | none => ⟨400, .message "body must be todo json", db, []⟩
  | some p =>
    let newTodo := p.applyTo zeroTodo
    let stmt : Stmt := ⟨insertSQL,
      [.str newTodo.title, .str newTodo.detail, .int newTodo.point, .bool newTodo.done]⟩
    if execFail then ⟨500, .message "fail to create todo", db, [stmt]⟩
    else
      let row : Todo := { newTodo with id := db.nextId }
      let db2 : DB := ⟨db.rows ++ [row], db.nextId + 1⟩
      if lastIdFail then ⟨500, .message "fail to get last insert id", db2, [stmt]⟩
      else ⟨201, .todo row, db2, [stmt]⟩

/-- `listTodos`, `src/main.go` lines 121-149.  `queryFail` models a
`db.Query` failure, `scanFail` a `rows.Scan` failure, `rowsErrFail` a
non-nil `rows.Err()` after the loop; all three answer 500. -/
def listTodos (db : DB) (queryFail scanFail rowsErrFail : Bool) : HandlerResult :=
  let stmt : Stmt := ⟨selectAllSQL, []⟩
  if queryFail then ⟨500, .message "fail to exec query", db, [stmt]⟩
  else if scanFail then ⟨500, .message "fail to scan columns to struct", db, [stmt]⟩
  else if rowsErrFail then ⟨500, .message "fail to read rows", db, [stmt]⟩
  else ⟨200, .todos db.rows, db, [stmt]⟩

/-- `getTodo`, `src/main.go` lines 152-170.  `database/sql` defers every
error of `QueryRow` (connection, query execution, row decoding) to
`row.Scan`, and the handler maps ANY non-nil `Scan` error - a genuine
storage failure (`fault = true`) just like `sql.ErrNoRows` - to the single
404 branch at lines 163-166; `getTodo` has no 500 branch. -/
def getTodo (db : DB) (idStr : String) (fault : Bool) : HandlerResult :=
  match parseInt64 idStr with
  | none => ⟨400, .message "id must can parse string to int64", db, []⟩
  | some id =>
    let stmt : Stmt := ⟨selectOneSQL, [.int id]⟩
    if fault then ⟨404, .message "not exists id", db, [stmt]⟩
    else
      match db.rows.find? (fun r => decide (r.id = id)) with
      | none => ⟨404, .message "not exists id", db, [stmt]⟩
      | some t => ⟨200, .todo t, db, [stmt]⟩

/-- Rows of the table after
`UPDATE todos SET title = ?, detail = ?, point = ?, done = ? WHERE id = ?`:
every row whose id matches gets the four non-id columns replaced. -/
def updRows (rows : List Todo) (nt : Todo) : List Todo :=
  rows.map (fun r =>
    if r.id = nt.id then
      { r with title := nt.title, detail := nt.detail, point := nt.point, done := nt.done }
    else r)

/-- Affected-row count reported for the UPDATE.  The repository connects
with `go-sql-driver/mysql` and a `mysql.Config` (`src/main.go` lines
29-35) that does not set `ClientFoundRows`, so MySQL reports its default
affected-rows value for UPDATE: the number of rows actually CHANGED, not
the number matched by the WHERE clause.  A matched row whose four non-id
columns already equal the new values is not counted. -/
def updChanged (rows : List Todo) (nt : Todo) : Nat :=
  (rows.filter (fun r =>
    decide (r.id = nt.id) &&
      !decide (r.title = nt.title ∧ r.detail = nt.detail ∧
        r.point = nt.point ∧ r.done = nt.done))).length

/-- `updateTodo`, `src/main.go` lines 173-213.  `newTodo.Id` is first set
from the path parameter (line 177); `BindJSON` (line 184) then overwrites
every field the JSON body supplies - INCLUDING `Id` when the body carries
an `id` field, since `Id` has the json tag `id`.  The UPDATE binds
`newTodo.Id` as the WHERE parameter.  `execFail` models a `db.Exec`
failure (nothing is updated), `rowsAffFail` a failure of
`res.RowsAffected()` (the update already happened).  A zero affected count
answers 404, otherwise 200 with `newTodo`. -/
def updateTodo (db : DB) (idStr : String) (body : Option TodoPatch)
    (execFail rowsAffFail : Bool) : HandlerResult :=
  match parseInt64 idStr with
  | none => ⟨400, .message "id must can parse string to int64", db, []⟩
  | some pathId =>
    match body with
    | none => ⟨400, .message "body must be todo json", db, []⟩
    | some p =>
      let newTodo := p.applyTo { zeroTodo with id := pathId }
      let stmt : Stmt := ⟨updateSQL,
        [.str newTodo.title, .str newTodo.detail, .int newTodo.point,
         .bool newTodo.done, .int newTodo.id]⟩
      if execFail then ⟨500, .message "fail to exec query", db, [stmt]⟩
      else
        let db2 : DB := ⟨updRows db.rows newTodo, db.nextId⟩
        if rowsAffFail then ⟨500, .message "fail to get affected row count", db2, [stmt]⟩
        else if updChanged db.rows newTodo = 0 then
          ⟨404, .message "not exists id", db2, [stmt]⟩
        else ⟨200, .todo newTodo, db2, [stmt]⟩

/-- `deleteTodo`, `src/main.go` lines 216-248.  `execFail` models a
`db.Exec` failure (nothing is deleted), `rowsAffFail` a failure of
`res.RowsAffected()` (the delete already happened).  For DELETE the
affected count is the number of rows removed.  A zero count answers 404,
otherwise 200 with `gin.H{"id": id}`. -/
def deleteTodo (db : DB) (idStr : String) (execFail rowsAffFail : Bool) :
    HandlerResult :=
  match parseInt64 idStr with
  | none => ⟨400, .message "id must can parse string to int64", db, []⟩
  | some id =>
    let stmt : Stmt := ⟨deleteSQL, [.int id]⟩
    if execFail then ⟨500, .message "fail to exec query", db, [stmt]⟩
    else
      let affected := (db.rows.filter (fun r => decide (r.id = id))).length
      let db2 : DB := ⟨db.rows.filter (fun r => !decide (r.id = id)), db.nextId⟩
      if rowsAffFail then ⟨500, .message "fail to get affected row count", db2, [stmt]⟩
      else if affected = 0 then ⟨404, .message "not exists id", db2, [stmt]⟩
      else ⟨200, .idObj id, db2, [stmt]⟩

/-- Sanity checks that `parseInt64` matches `strconv.ParseInt(s, 10, 64)`
on representative inputs, including the signed 64-bit boundary. -/
theorem parseInt64_spot_checks :
    parseInt64 "12" = some 12 ∧
    parseInt64 "-3" = some (-3) ∧
    parseInt64 "abc" = none ∧
    parseInt64 "" = none ∧
    parseInt64 "+" = none ∧
    parseInt64 "9223372036854775807" = some 9223372036854775807 ∧
    parseInt64 "9223372036854775808" = none ∧
    parseInt64 "-9223372036854775808" = some (-9223372036854775808) := by decide

/-- Auxiliary: `find?` skips a prefix on which the predicate is false. -/
theorem find?_append_right {l1 l2 : List Todo} {p : Todo → Bool}
    (h : ∀ r ∈ l1, p r = false) : (l1 ++ l2).find? p = l2.find? p := by
  induction l1 with
  | nil => rfl
  | cons a l ih =>
    have ha : p a = false := h a (List.mem_cons_self a l)
    rw [List.cons_append, List.find?_cons_of_neg _ (by simp [ha])]
    exact ih (fun r hr => h r (List.mem_cons_of_mem a hr))

/-- Claim C1, evaluated at the failing input: with path id 1 and a body
that supplies id 2, `updateTodo` overwrites row 2 (not row 1, the path
id), binds 2 as the WHERE parameter, and returns a record whose id is 2 -
the body id is NOT ignored, it overrides the path id. -/
theorem claim_C1 :
    (updateTodo ⟨[⟨1, "a", "b", 1, false⟩, ⟨2, "x", "y", 2, true⟩], 3⟩ "1"
        (some ⟨some 2, some "t", some "d", some 3, some true⟩) false false).status = 200 ∧
    (updateTodo ⟨[⟨1, "a", "b", 1, false⟩, ⟨2, "x", "y", 2, true⟩], 3⟩ "1"
        (some ⟨some 2, some "t", some "d", some 3, some true⟩) false false).body =
      .todo ⟨2, "t", "d", 3, true⟩ ∧
    (updateTodo ⟨[⟨1, "a", "b", 1, false⟩, ⟨2, "x", "y", 2, true⟩], 3⟩ "1"
        (some ⟨some 2, some "t", some "d", some 3, some true⟩) false false).db.rows =
      [⟨1, "a", "b", 1, false⟩, ⟨2, "t", "d", 3, true⟩] ∧
    (updateTodo ⟨[⟨1, "a", "b", 1, false⟩, ⟨2, "x", "y", 2, true⟩], 3⟩ "1"
        (some ⟨some 2, some "t", some "d", some 3, some true⟩) false false).trace =
      [⟨updateSQL, [.str "t", .str "d", .int 3, .bool true, .int 2]⟩] := by decide

/-- Claim C2 counterexample: an injected storage failure on
GET /todos/1 (row with id 1 present, so this is not a no-match case)
answers 404, not the 500 the claim requires. -/
theorem claim_C2_cex :
    (getTodo ⟨[⟨1, "a", "b", 1, false⟩], 2⟩ "1" true).status = 404 ∧
    ¬ (getTodo ⟨[⟨1, "a", "b", 1, false⟩], 2⟩ "1" true).status = 500 := by decide

/-- Claim C2 as amended: `getTodo` never answers 500; whenever the id
parses, it answers 404 exactly when the row scan fails - from a storage
fault or from no row matching the id - and 200 otherwise. -/
theorem claim_C2 (db : DB) (s : String) (fault : Bool) :
    (getTodo db s fault).status ≠ 500 ∧
    (∀ id, parseInt64 s = some id →
      ((getTodo db s fault).status = 404 ↔
        (fault = true ∨ db.rows.find? (fun r => decide (r.id = id)) = none))) := by
  constructor
  · cases h : parseInt64 s with
    | none => simp [getTodo, h]
    | some id =>
      cases fault with
      | true => simp [getTodo, h]
      | false =>
        cases hf : db.rows.find? (fun r => decide (r.id = id)) <;>
          simp [getTodo, h, hf]
  · intro id hid
    cases fault with
    | true => simp [getTodo, hid]
    | false =>
      cases hf : db.rows.find? (fun r => decide (r.id = id)) <;>
        simp [getTodo, hid, hf]

/-- Witness for C2 at a concrete input. -/
theorem claim_C2_witness :
    (getTodo ⟨[⟨1, "a", "b", 1, false⟩], 2⟩ "1" true).status = 404 ↔
      (true = true ∨
        (DB.mk [⟨1, "a", "b", 1, false⟩] 2).rows.find? (fun r => decide (r.id = 1)) = none) :=
  (claim_C2 ⟨[⟨1, "a", "b", 1, false⟩], 2⟩ "1" true).2 1 (by decide)

/-- Claim C3 counterexample: POST with an empty JSON object is answered
201 and the inserted row has the EMPTY title - the create handler
enforces no non-emptiness. -/
theorem claim_C3_cex :
    (createTodo ⟨[], 1⟩ (some ⟨none, none, none, none, none⟩) false false).status = 201 ∧
    (createTodo ⟨[], 1⟩ (some ⟨none, none, none, none, none⟩) false false).db.rows =
      [⟨1, "", "", 0, false⟩] := by decide

/-- Claim C3 as amended: a 201 POST inserts exactly one row carrying the
submitted title, detail, point and done (missing fields default to their
zero values, so the stored title is the empty string whenever the body
omits or empties it - non-emptiness is not enforced). -/
theorem claim_C3 (db : DB) (p : TodoPatch) (ef lf : Bool)
    (h : (createTodo db (some p) ef lf).status = 201) :
    (createTodo db (some p) ef lf).db.rows =
      db.rows ++ [⟨db.nextId, p.title.getD "", p.detail.getD "",
        p.point.getD 0, p.done.getD false⟩] := by
  cases ef <;> cases lf <;>
    simp [createTodo, TodoPatch.applyTo, zeroTodo] at h ⊢

/-- Witness for C3 at a concrete input. -/
theorem claim_C3_witness :
    (createTodo ⟨[], 1⟩ (some ⟨none, none, none, none, none⟩) false false).db.rows =
      (DB.mk [] 1).rows ++ [⟨(DB.mk [] 1).nextId, "", "", 0, false⟩] :=
  claim_C3 ⟨[], 1⟩ ⟨none, none, none, none, none⟩ false false (by decide)

/-- Claim C4, evaluated at the failing input: row id 1 exists, the PUT
body carries the row's current values, there is no storage error, and yet
the handler answers 404 (MySQL default affected-rows counts CHANGED rows,
and nothing changed), where the claim requires 200 for an existing id. -/
theorem claim_C4 :
    ((⟨1, "a", "b", 1, false⟩ : Todo) ∈ (DB.mk [⟨1, "a", "b", 1, false⟩] 2).rows) ∧
    (updateTodo ⟨[⟨1, "a", "b", 1, false⟩], 2⟩ "1"
        (some ⟨none, some "a", some "b", some 1, some false⟩) false false).status = 404 ∧
    (updateTodo ⟨[⟨1, "a", "b", 1, false⟩], 2⟩ "1"
        (some ⟨none, some "a", some "b", some 1, some false⟩) false false).db.rows =
      [⟨1, "a", "b", 1, false⟩] := by decide

/-- Claim C5: round-trip.  Creating a todo (no storage faults) and then
fetching it with an id string denoting the returned id yields the exact
record of the create response, field for field.  The hypothesis is the
AUTO_INCREMENT table invariant: no stored row already uses the next
generated id. -/
theorem claim_C5 (db : DB) (p : TodoPatch) (s : String)
    (hfresh : ∀ r ∈ db.rows, r.id ≠ db.nextId)
    (hs : parseInt64 s = some db.nextId) :
    (createTodo db (some p) false false).status = 201 ∧
    ∃ t : Todo, (createTodo db (some p) false false).body = .todo t ∧
      t.id = db.nextId ∧
      (getTodo (createTodo db (some p) false false).db s false).status = 200 ∧
      (getTodo (createTodo db (some p) false false).db s false).body = .todo t := by
  refine ⟨rfl, ⟨{ p.applyTo zeroTodo with id := db.nextId }, rfl, rfl, ?_, ?_⟩⟩ <;>
  · have hfind : ((db.rows ++ [{ p.applyTo zeroTodo with id := db.nextId }]).find?
        (fun r => decide (r.id = db.nextId))) =
          some { p.applyTo zeroTodo with id := db.nextId } := by
      rw [find?_append_right (fun r hr => by simp [hfresh r hr])]
      exact List.find?_cons_of_pos _ (by simp)
    simp only [createTodo, getTodo, hs]
    simp [hfind]

/-- Witness for C5 at a concrete input. -/
theorem claim_C5_witness :
    (createTodo ⟨[], 1⟩ (some ⟨none, none, none, none, none⟩) false false).status = 201 ∧
    ∃ t : Todo,
      (createTodo ⟨[], 1⟩ (some ⟨none, none, none, none, none⟩) false false).body = .todo t ∧
      t.id = (DB.mk [] 1).nextId ∧
      (getTodo (createTodo ⟨[], 1⟩ (some ⟨none, none, none, none, none⟩) false false).db
        "1" false).status = 200 ∧
      (getTodo (createTodo ⟨[], 1⟩ (some ⟨none, none, none, none, none⟩) false false).db
        "1" false).body = .todo t :=
  claim_C5 ⟨[], 1⟩ ⟨none, none, none, none, none⟩ "1" (by decide) (by decide)

/-- Claim C6: an id path segment that does not parse as a base-10 signed
64-bit integer is answered 400 by the get, update and delete handlers
(hence never 500). -/
theorem claim_C6 (db : DB) (s : String) (body : Option TodoPatch)
    (f ef rf ef2 rf2 : Bool) (h : parseInt64 s = none) :
    (getTodo db s f).status = 400 ∧
    (updateTodo db s body ef rf).status = 400 ∧
    (deleteTodo db s ef2 rf2).status = 400 := by
  refine ⟨?_, ?_, ?_⟩ <;> simp [getTodo, updateTodo, deleteTodo, h]

/-- Witness for C6 at a concrete input. -/
theorem claim_C6_witness :
    (getTodo ⟨[], 1⟩ "abc" false).status = 400 ∧
    (updateTodo ⟨[], 1⟩ "abc" none false false).status = 400 ∧
    (deleteTodo ⟨[], 1⟩ "abc" false false).status = 400 :=
  claim_C6 ⟨[], 1⟩ "abc" none false false false false false (by decide)

/-- Claim C7: deleting an existing id twice (no storage faults, no
interleaving) answers 200 with the id object first, then 404, because the
first DELETE removes every row matching the id. -/
theorem claim_C7 (db : DB) (s : String) (id : Int)
    (hs : parseInt64 s = some id) (hmem : ∃ r ∈ db.rows, r.id = id) :
    (deleteTodo db s false false).status = 200 ∧
    (deleteTodo db s false false).body = .idObj id ∧
    (deleteTodo (deleteTodo db s false false).db s false false).status = 404 := by
  obtain ⟨r0, hr0, hid0⟩ := hmem
  have h1 : (db.rows.filter (fun r => decide (r.id = id))).length ≠ 0 := by
    have hm : r0 ∈ db.rows.filter (fun r => decide (r.id = id)) :=
      List.mem_filter.mpr ⟨hr0, by simp [hid0]⟩
    intro hlen
    rw [List.length_eq_zero] at hlen
    rw [hlen] at hm
    exact List.not_mem_nil r0 hm
  have h2 : ((db.rows.filter (fun r => !decide (r.id = id))).filter
      (fun r => decide (r.id = id))).length = 0 := by
    rw [List.length_eq_zero, List.filter_eq_nil_iff]
    intro a ha
    have := (List.mem_filter.mp ha).2
    simp at this
    simp [this]
  refine ⟨?_, ?_, ?_⟩ <;> simp [deleteTodo, hs, h1, h2]

/-- Witness for C7 at a concrete input. -/
theorem claim_C7_witness :
    (deleteTodo ⟨[⟨1, "a", "b", 1, false⟩], 2⟩ "1" false false).status = 200 ∧
    (deleteTodo ⟨[⟨1, "a", "b", 1, false⟩], 2⟩ "1" false false).body = .idObj 1 ∧
    (deleteTodo (deleteTodo ⟨[⟨1, "a", "b", 1, false⟩], 2⟩ "1" false false).db
      "1" false false).status = 404 :=
  claim_C7 ⟨[⟨1, "a", "b", 1, false⟩], 2⟩ "1" 1 (by decide) (by decide)

/-- Claim C8: a successful POST answers 201; the inserted row's id is the
storage-generated AUTO_INCREMENT value; the INSERT statement binds only
title, detail, point and done (no id parameter, and the constant statement
text names no id column); the response carries the generated id together
with the submitted fields; and the whole outcome is unchanged if the body
supplies any id value - a client-supplied id is ignored. -/
theorem claim_C8 (db : DB) (p : TodoPatch) (ef lf : Bool)
    (h : (createTodo db (some p) ef lf).status = 201) :
    (createTodo db (some p) ef lf).body =
      .todo ⟨db.nextId, p.title.getD "", p.detail.getD "", p.point.getD 0,
        p.done.getD false⟩ ∧
    (createTodo db (some p) ef lf).db.rows =
      db.rows ++ [⟨db.nextId, p.title.getD "", p.detail.getD "", p.point.getD 0,
        p.done.getD false⟩] ∧
    (createTodo db (some p) ef lf).trace =
      [⟨insertSQL, [.str (p.title.getD ""), .str (p.detail.getD ""),
        .int (p.point.getD 0), .bool (p.done.getD false)]⟩] ∧
    (∀ x : Option Int, createTodo db (some { p with id := x }) ef lf =
      createTodo db (some p) ef lf) := by
  cases ef <;> cases lf <;>
    simp [createTodo, TodoPatch.applyTo, zeroTodo] at h ⊢

/-- Witness for C8 at a concrete input. -/
theorem claim_C8_witness :
    (createTodo ⟨[], 1⟩ (some ⟨some 77, some "a", some "b", some 1, some true⟩)
        false false).body =
      .todo ⟨(DB.mk [] 1).nextId, "a", "b", 1, true⟩ ∧
    (createTodo ⟨[], 1⟩ (some ⟨some 77, some "a", some "b", some 1, some true⟩)
        false false).db.rows =
      (DB.mk [] 1).rows ++ [⟨(DB.mk [] 1).nextId, "a", "b", 1, true⟩] ∧
    (createTodo ⟨[], 1⟩ (some ⟨some 77, some "a", some "b", some 1, some true⟩)
        false false).trace =
      [⟨insertSQL, [.str "a", .str "b", .int 1, .bool true]⟩] ∧
    (∀ x : Option Int,
      createTodo ⟨[], 1⟩ (some ⟨x, some "a", some "b", some 1, some true⟩) false false =
        createTodo ⟨[], 1⟩ (some ⟨some 77, some "a", some "b", some 1, some true⟩)
          false false) :=
  claim_C8 ⟨[], 1⟩ ⟨some 77, some "a", some "b", some 1, some true⟩ false false (by decide)

/-- Claim C9: every SQL statement any handler hands to the driver has the
fixed constant text of its endpoint - request input only ever appears in
the bound parameter list - so any two statements sent by the same endpoint
on any two requests have identical text. -/
theorem claim_C9 :
    (∀ db body ef lf s, s ∈ (createTodo db body ef lf).trace → s.text = insertSQL) ∧
    (∀ db q sc re s, s ∈ (listTodos db q sc re).trace → s.text = selectAllSQL) ∧
    (∀ db i f s, s ∈ (getTodo db i f).trace → s.text = selectOneSQL) ∧
    (∀ db i body ef rf s, s ∈ (updateTodo db i body ef rf).trace → s.text = updateSQL) ∧
    (∀ db i ef rf s, s ∈ (deleteTodo db i ef rf).trace → s.text = deleteSQL) := by
  refine ⟨?_, ?_, ?_, ?_, ?_⟩
  · intro db body ef lf s hs
    unfold createTodo at hs
    repeat' split at hs
    all_goals simp_all
  · intro db q sc re s hs
    unfold listTodos at hs
    repeat' split at hs
    all_goals simp_all
  · intro db i f s hs
    unfold getTodo at hs
    repeat' split at hs
    all_goals simp_all
  · intro db i body ef rf s hs
    unfold updateTodo at hs
    repeat' split at hs
    all_goals try simp only [apply_ite HandlerResult.trace, ite_self] at hs
    all_goals simp_all
  · intro db i ef rf s hs
    unfold deleteTodo at hs
    repeat' split at hs
    all_goals try simp only [apply_ite HandlerResult.trace, ite_self] at hs
    all_goals simp_all

/-- Witness for C9 at concrete requests, one per endpoint. -/
theorem claim_C9_witness :
    (Stmt.mk insertSQL [.str "", .str "", .int 0, .bool false]).text = insertSQL ∧
    (Stmt.mk selectAllSQL []).text = selectAllSQL ∧
    (Stmt.mk selectOneSQL [.int 1]).text = selectOneSQL ∧
    (Stmt.mk updateSQL [.str "", .str "", .int 0, .bool false, .int 1]).text = updateSQL ∧
    (Stmt.mk deleteSQL [.int 1]).text = deleteSQL :=
  ⟨claim_C9.1 ⟨[], 1⟩ (some ⟨none, none, none, none, none⟩) false false _ (by decide),
   claim_C9.2.1 ⟨[], 1⟩ false false false _ (by decide),
   claim_C9.2.2.1 ⟨[], 1⟩ "1" false _ (by decide),
   claim_C9.2.2.2.1 ⟨[], 1⟩ "1" (some ⟨none, none, none, none, none⟩) false false _
     (by decide),
   claim_C9.2.2.2.2 ⟨[], 1⟩ "1" false false _ (by decide)⟩

/-- Claim C10: whenever the create, update or delete handler answers 400
(bind failure or unparseable id), it has issued no SQL statement and the
database state is unchanged. -/
theorem claim_C10 (db : DB) (body : Option TodoPatch) (s : String)
    (ef lf ef2 rf2 ef3 rf3 : Bool) :
    ((createTodo db body ef lf).status = 400 →
      (createTodo db body ef lf).trace = [] ∧ (createTodo db body ef lf).db = db) ∧
    ((updateTodo db s body ef2 rf2).status = 400 →
      (updateTodo db s body ef2 rf2).trace = [] ∧ (updateTodo db s body ef2 rf2).db = db) ∧
    ((deleteTodo db s ef3 rf3).status = 400 →
      (deleteTodo db s ef3 rf3).trace = [] ∧ (deleteTodo db s ef3 rf3).db = db) := by
  refine ⟨?_, ?_, ?_⟩
  · cases body with
    | none => intro h; simp [createTodo]
    | some p => cases ef <;> cases lf <;> simp [createTodo]
  · cases hp : parseInt64 s with
    | none => intro h; simp [updateTodo, hp]
    | some pathId =>
      cases body with
      | none => intro h; simp [updateTodo, hp]
      | some p =>
        cases ef2 <;> cases rf2 <;> simp [updateTodo, hp]
        split <;> simp
  · cases hp : parseInt64 s with
    | none => intro h; simp [deleteTodo, hp]
    | some id =>
      cases ef3 <;> cases rf3 <;> simp [deleteTodo, hp]
      split <;> simp

/-- Witness for C10 at concrete 400-producing requests. -/
theorem claim_C10_witness :
    ((createTodo ⟨[], 1⟩ none false false).trace = [] ∧
      (createTodo ⟨[], 1⟩ none false false).db = ⟨[], 1⟩) ∧
    ((updateTodo ⟨[], 1⟩ "x" none false false).trace = [] ∧
      (updateTodo ⟨[], 1⟩ "x" none false false).db = ⟨[], 1⟩) ∧
    ((deleteTodo ⟨[], 1⟩ "x" false false).trace = [] ∧
      (deleteTodo ⟨[], 1⟩ "x" false false).db = ⟨[], 1⟩) :=
  ⟨(claim_C10 ⟨[], 1⟩ none "x" false false false false false false).1 (by decide),
   (claim_C10 ⟨[], 1⟩ none "x" false false false false false false).2.1 (by decide),
   (claim_C10 ⟨[], 1⟩ none "x" false false false false false false).2.2 (by decide)⟩
